import Mathlib

/-!
Verification of the audio decode + sample-extraction pipeline of
touchable-fft (src/touchable-fft/app.py).

The POST handler of WaveformAPI is embedded as a pure function of
  - the behavior of the third-party decoder (audioread audio_open plus
    read_data), abstracted as a function from the uploaded file bytes to a
    DecodeOutcome, since the handler writes the upload to a temp file and
    reads it back unchanged;
  - the uploaded file bytes (request.files lookup of key file);
  - the random temp-file name (str(uuid4()) at line 57), which only names
    the on-disk location and never enters the data path;
  - the length and sample_rate request parameters, which the handler body
    never reads.

Python exceptions that escape the handler uncaught are modelled as the
error side of Except; the code contains no try/except, so every PyError
below is an unhandled fault at the web-framework boundary, not a typed
error result. Integer division of Python 2, the language of the source,
is Nat division here. struct.unpack with format 2048h demands exactly
4096 bytes and decodes native little-endian signed 16-bit integers.
-/

set_option maxRecDepth 100000

/-- An uncaught Python exception escaping the POST handler. The source has
no try/except and no typed error taxonomy, so these propagate to the web
framework as unhandled faults. -/
inductive PyError where
  | keyError (key : String)
  | decodeError (msg : String)
  | indexError
  | nameError (name : String)
  | structError
  deriving Repr, DecidableEq

/-- The decoded stream as audioread exposes it to the handler: channel
count and sample rate attributes, and the materialized list(audio.read_data())
of raw PCM byte blocks (each a list of byte values 0..255). -/
structure AudioStream where
  channels : Nat
  samplerate : Nat
  buffers : List (List Nat)
  deriving Repr, DecidableEq

/-- Outcome of audio_open plus read_data on the saved upload: either a
decoded stream or a raised decoder exception (audioread DecodeError or
NoBackendError). -/
inductive DecodeOutcome where
  | ok (audio : AudioStream)
  | fail (msg : String)
  deriving Repr, DecidableEq

/-- The JSON-shaped payload assembled at lines 64-68 of app.py: samples,
size, channels, samplerate. Note the absence of any truncated field. -/
structure WaveformResponse where
  samples : List Int
  size : Nat
  channels : Nat
  samplerate : Nat
  deriving Repr, DecidableEq

/-- One native little-endian signed 16-bit value from two bytes, as
struct.unpack format h produces. -/
def decodeInt16LE (lo hi : Nat) : Int :=
  let u := lo + 256 * hi
  if u < 32768 then (u : Int) else (u : Int) - 65536

/-- Byte pairs decoded to signed 16-bit values, in order. -/
def unpackInt16s : List Nat → List Int
  | lo :: hi :: rest => decodeInt16LE lo hi :: unpackInt16s rest
  | _ => []

/-- struct.unpack with the hardcoded format 2048h (line 62): raises
struct.error unless the buffer is exactly 4096 bytes, else yields the 2048
decoded 16-bit samples. -/
def structUnpack2048h (buf : List Nat) : Except PyError (List Int) :=
  if buf.length = 2048 * 2 then Except.ok (unpackInt16s buf)
  else Except.error PyError.structError

/-- The POST handler of WaveformAPI exactly as written (lines 54-68):
look up the uploaded file, save it under the random temp name, decode it,
take buffers[len(buffers) / 2], then evaluate
struct.unpack(2048h, middle_sample) where the name middle_sample is
unbound (the assignment at line 60 binds middle_samples), so every path
that reaches line 62 raises NameError. The lengthParam and sampleRateParam
request parameters are never read by the body. -/
def WaveformAPI.post (decode : List Nat → DecodeOutcome)
    (fileBytes : Option (List Nat)) (tmpName : String)
    (lengthParam sampleRateParam : Int) : Except PyError WaveformResponse :=
  match fileBytes with
  | none => Except.error (PyError.keyError "file")
  | some bytes =>
    match decode bytes with
    | DecodeOutcome.fail msg => Except.error (PyError.decodeError msg)
    | DecodeOutcome.ok audio =>
      match audio.buffers[audio.buffers.length / 2]? with
      | none => Except.error PyError.indexError
      | some _middle_samples => Except.error (PyError.nameError "middle_sample")

/-- The POST handler with the single variable-name slip corrected, reading
middle_sample at line 62 as the middle_samples bound at line 60. This is
the minimal repair the spec itself identifies (section 9: a variable-name
mismatch that would crash before returning any data); it exhibits what the
crashing line conceals and is used only to witness divergences, never to
confirm a claim about the shipped code. -/
def WaveformAPI.post_intended (decode : List Nat → DecodeOutcome)
    (fileBytes : Option (List Nat)) (tmpName : String)
    (lengthParam sampleRateParam : Int) : Except PyError WaveformResponse :=
  match fileBytes with
  | none => Except.error (PyError.keyError "file")
  | some bytes =>
    match decode bytes with
    | DecodeOutcome.fail msg => Except.error (PyError.decodeError msg)
    | DecodeOutcome.ok audio =>
      match audio.buffers[audio.buffers.length / 2]? with
      | none => Except.error PyError.indexError
      | some middle_samples =>
        match structUnpack2048h middle_samples with
        | Except.error e => Except.error e
        | Except.ok decoded_samples =>
          Except.ok { samples := decoded_samples
                      size := decoded_samples.length
                      channels := audio.channels
                      samplerate := audio.samplerate }

/-- A minimal JSON value model for the GET handler. -/
inductive PyJson where
  | obj (fields : List (String × PyJson))
  | arr (elems : List PyJson)

/-- An HTTP response as render_json builds it (lines 19-22): the payload
wrapped in a dict under the key data, serialized with mimetype
application/json. -/
structure HttpResponse where
  body : PyJson
  mimetype : String

/-- render_json (lines 19-22): wrap the data in a singleton dict and emit
it as application/json. -/
def render_json (data : PyJson) : HttpResponse :=
  { body := PyJson.obj [("data", data)], mimetype := "application/json" }

/-- The GET handler of WaveformAPI (lines 52-53): return render_json on an
empty dict. The url, sample_rate and length query parameters documented in
the class docstring are never read. -/
def WaveformAPI.get (url : Option String) (sample_rate : Option Int)
    (length : Option Int) : HttpResponse :=
  render_json (PyJson.obj [])

/-- Two bytes of a value encoded as native little-endian 16-bit, as a
synthetic PCM fixture. -/
def int16Bytes (v : Nat) : List Nat :=
  [v % 256, v / 256 % 256]

/-- A synthetic PCM byte block whose successive 16-bit samples carry the
values start, start+1, ..., start+count-1, so a sample value identifies its
offset in the stream. -/
def rampBlock : Nat → Nat → List Nat
  | _, 0 => []
  | s, n + 1 => int16Bytes s ++ rampBlock (s + 1) n

/-- Nominal uploaded file bytes; the concrete decoders below fix the
decode outcome, so only presence matters. -/
def uploadBytes : List Nat :=
  [82, 73, 70, 70]

/-- A stream of exactly 2048 interleaved samples in one 4096-byte block. -/
def stream2048 : AudioStream :=
  { channels := 2, samplerate := 44100, buffers := [rampBlock 0 2048] }

/-- A decoder that decodes every upload to stream2048. -/
def dec2048 : List Nat → DecodeOutcome :=
  fun _ => DecodeOutcome.ok stream2048

/-- A mono stream of 3 * 2048 = 6144 samples whose ramp values equal their
offsets, split into blocks of 1024, 2048 and 3072 samples. -/
def stream3x : AudioStream :=
  { channels := 1, samplerate := 44100
    buffers := [rampBlock 0 1024, rampBlock 1024 2048, rampBlock 3072 3072] }

/-- A decoder that decodes every upload to stream3x. -/
def dec3x : List Nat → DecodeOutcome :=
  fun _ => DecodeOutcome.ok stream3x

/-- A stream of only 50 samples (100 bytes), far shorter than 2048. -/
def streamShort : AudioStream :=
  { channels := 2, samplerate := 44100, buffers := [rampBlock 0 50] }

/-- A decoder that decodes every upload to streamShort. -/
def decShort : List Nat → DecodeOutcome :=
  fun _ => DecodeOutcome.ok streamShort

/-- A decode that yields no PCM blocks at all. -/
def streamNoBuffers : AudioStream :=
  { channels := 2, samplerate := 44100, buffers := [] }

/-- A decoder reporting degenerate metadata (zero channels, zero sample
rate) with a well-formed 4096-byte block, probing whether the handler
validates metadata. -/
def streamZeroMeta : AudioStream :=
  { channels := 0, samplerate := 0, buffers := [rampBlock 0 2048] }

/-- A decoder that raises on a zero-byte input, as audioread does when no
backend can open an empty file, and decodes anything else to stream2048. -/
def decEmptyFails : List Nat → DecodeOutcome :=
  fun bytes =>
    if bytes.length = 0 then DecodeOutcome.fail "NoBackendError"
    else DecodeOutcome.ok stream2048

/-- Modelled from the spec, section 4.2: the corrected midpoint window
selection the spec declares as the intended contract. From the flattened
interleaved sample sequence, the window of the given length starts at
max(0, (total - length) / 2) with floor division; Nat subtraction and
division realize exactly that formula. Used only to compare the shipped
selection policy against the specified one. -/
def extractMidpointWindow (samples : List Int) (length : Nat) : List Int :=
  List.take length (List.drop ((samples.length - length) / 2) samples)

/-- The full interleaved sample sequence of a decoded stream: every block
decoded and concatenated in order. -/
def allSamples (a : AudioStream) : List Int :=
  (a.buffers.map unpackInt16s).flatten

/-- The first sample of a successful response, if any. -/
def firstSample : Except PyError WaveformResponse → Option Int
  | Except.ok r => r.samples.head?
  | Except.error _ => none

/-- The size field of a successful response, if any. -/
def respSize : Except PyError WaveformResponse → Option Nat
  | Except.ok r => some r.size
  | Except.error _ => none

/-- The channels field of a successful response, if any. -/
def respChannels : Except PyError WaveformResponse → Option Nat
  | Except.ok r => some r.channels
  | Except.error _ => none

/-- The samplerate field of a successful response, if any. -/
def respSamplerate : Except PyError WaveformResponse → Option Nat
  | Except.ok r => some r.samplerate
  | Except.error _ => none

theorem unpackInt16s_length : ∀ l : List Nat, (unpackInt16s l).length = l.length / 2
  | [] => by simp [unpackInt16s]
  | [_] => by simp [unpackInt16s]
  | _ :: _ :: rest => by
      have ih := unpackInt16s_length rest
      simp only [unpackInt16s, List.length_cons, ih]
      omega

theorem rampBlock_length : ∀ s n : Nat, (rampBlock s n).length = 2 * n
  | _, 0 => rfl
  | s, n + 1 => by
      have ih := rampBlock_length (s + 1) n
      simp only [rampBlock, int16Bytes, List.length_append, List.length_cons,
        List.length_nil, ih]
      omega

theorem decodeInt16LE_small (v : Nat) (h : v < 32768) :
    decodeInt16LE (v % 256) (v / 256 % 256) = (v : Int) := by
  have h1 : v / 256 < 256 := by omega
  have h2 : v / 256 % 256 = v / 256 := Nat.mod_eq_of_lt h1
  have h3 : v % 256 + 256 * (v / 256) = v := Nat.mod_add_div v 256
  simp only [decodeInt16LE, h2, h3]
  simp [h]

theorem unpackInt16s_rampBlock : ∀ n s : Nat, s + n ≤ 32768 →
    unpackInt16s (rampBlock s n) = (List.range' s n).map Int.ofNat
  | 0, _, _ => rfl
  | n + 1, s, h => by
      have ih := unpackInt16s_rampBlock n (s + 1) (by omega)
      have hs : s < 32768 := by omega
      show decodeInt16LE (s % 256) (s / 256 % 256) :: unpackInt16s (rampBlock (s + 1) n)
          = (List.range' s (n + 1)).map Int.ofNat
      rw [decodeInt16LE_small s hs, ih, List.range'_succ, List.map_cons]
      rfl

theorem rampBlock_head : ∀ s n : Nat, s < 32768 →
    (unpackInt16s (rampBlock s (n + 1))).head? = some (s : Int) := by
  intro s n h
  show (decodeInt16LE (s % 256) (s / 256 % 256) :: unpackInt16s (rampBlock (s + 1) n)).head?
      = some (s : Int)
  rw [decodeInt16LE_small s h, List.head?_cons]

/-- The samples-array element count of a successful response, if any. -/
def respSamplesLength : Except PyError WaveformResponse → Option Nat
  | Except.ok r => some r.samples.length
  | Except.error _ => none

theorem post_intended_ok (decode : List Nat → DecodeOutcome) (bytes : List Nat)
    (tmpName : String) (l sr : Int) (audio : AudioStream) (block : List Nat)
    (hd : decode bytes = DecodeOutcome.ok audio)
    (hb : audio.buffers[audio.buffers.length / 2]? = some block)
    (hu : block.length = 2048 * 2) :
    WaveformAPI.post_intended decode (some bytes) tmpName l sr
      = Except.ok { samples := unpackInt16s block
                    size := (unpackInt16s block).length
                    channels := audio.channels
                    samplerate := audio.samplerate } := by
  simp [WaveformAPI.post_intended, hd, hb, structUnpack2048h, hu]

theorem post_intended_dec2048 (tmpName : String) (l sr : Int) :
    WaveformAPI.post_intended dec2048 (some uploadBytes) tmpName l sr
      = Except.ok { samples := unpackInt16s (rampBlock 0 2048), size := 2048,
                    channels := 2, samplerate := 44100 } := by
  have h := post_intended_ok dec2048 uploadBytes tmpName l sr stream2048
    (rampBlock 0 2048) rfl rfl (by rw [rampBlock_length])
  rw [h]
  have hlen : (unpackInt16s (rampBlock 0 2048)).length = 2048 := by
    rw [unpackInt16s_length, rampBlock_length]
  rw [hlen]
  rfl

theorem post_intended_dec3x (tmpName : String) (l sr : Int) :
    WaveformAPI.post_intended dec3x (some uploadBytes) tmpName l sr
      = Except.ok { samples := unpackInt16s (rampBlock 1024 2048), size := 2048,
                    channels := 1, samplerate := 44100 } := by
  have h := post_intended_ok dec3x uploadBytes tmpName l sr stream3x
    (rampBlock 1024 2048) rfl rfl (by rw [rampBlock_length])
  rw [h]
  have hlen : (unpackInt16s (rampBlock 1024 2048)).length = 2048 := by
    rw [unpackInt16s_length, rampBlock_length]
  rw [hlen]
  rfl

theorem unpack_ramp_1024_head :
    (unpackInt16s (rampBlock 1024 2048)).head? = some (1024 : Int) := by
  have h := rampBlock_head 1024 2047 (by norm_num)
  norm_num at h
  exact h

theorem range'_split_stream3x :
    List.range' 0 1024 ++ (List.range' 1024 2048 ++ List.range' 3072 3072)
      = List.range' 0 6144 := by
  have hA := List.range'_append 1024 2048 3072 1
  norm_num at hA
  have hB := List.range'_append 0 1024 5120 1
  norm_num at hB
  exact (congrArg (fun l => List.range' 0 1024 ++ l) hA).trans hB

theorem allSamples_stream3x :
    allSamples stream3x = List.map Int.ofNat (List.range' 0 6144) := by
  have h1 : allSamples stream3x
      = List.map Int.ofNat (List.range' 0 1024)
        ++ (List.map Int.ofNat (List.range' 1024 2048)
            ++ List.map Int.ofNat (List.range' 3072 3072)) := by
    simp only [allSamples, stream3x, List.map_cons, List.map_nil,
      List.flatten_cons, List.flatten_nil, List.append_nil]
    rw [unpackInt16s_rampBlock 1024 0 (by norm_num),
        unpackInt16s_rampBlock 2048 1024 (by norm_num),
        unpackInt16s_rampBlock 3072 3072 (by norm_num)]
  have h2 : List.map Int.ofNat (List.range' 0 1024)
        ++ (List.map Int.ofNat (List.range' 1024 2048)
            ++ List.map Int.ofNat (List.range' 3072 3072))
      = List.map Int.ofNat
          (List.range' 0 1024 ++ (List.range' 1024 2048 ++ List.range' 3072 3072)) := by
    rw [List.map_append, List.map_append]
  exact h1.trans (h2.trans (congrArg (List.map Int.ofNat) range'_split_stream3x))

theorem midpoint_window_stream3x_head :
    (extractMidpointWindow (allSamples stream3x) 2048).head? = some 2048 := by
  have hlen : (allSamples stream3x).length = 6144 := by
    rw [allSamples_stream3x, List.length_map, List.length_range']
  have harith : (6144 - 2048) / 2 = 2048 := by norm_num
  show (List.take 2048 (List.drop (((allSamples stream3x).length - 2048) / 2)
    (allSamples stream3x))).head? = some 2048
  rw [hlen, harith, List.head?_take, if_neg (by norm_num : ¬((2048 : Nat) = 0)),
      List.head?_drop, allSamples_stream3x, List.getElem?_map,
      List.getElem?_range' 0 1 (by norm_num : (2048 : Nat) < 6144)]
  norm_num

/-- C1: the claim says the window of length interleaved samples starts at
max(0, (total_samples - length) / 2), so that a stream of exactly 2048
samples returns whole and a stream of 3 * 2048 samples returns a window
starting at frame 2048. The shipped handler does neither: on the 6144
sample stream split into blocks of 1024, 2048 and 3072 samples it raises
NameError on the unbound name middle_sample before returning anything, and
even with that slip repaired it unpacks the middle block of the buffer
list, whose first sample sits at offset 1024, not at the specified
midpoint offset 2048 exhibited by the spec formula. -/
theorem c1_window_not_at_midpoint :
    WaveformAPI.post dec3x (some uploadBytes) "t1" 2048 44100
      = Except.error (PyError.nameError "middle_sample") ∧
    firstSample (WaveformAPI.post_intended dec3x (some uploadBytes) "t1" 2048 44100)
      = some 1024 ∧
    (extractMidpointWindow (allSamples stream3x) 2048).head? = some 2048 ∧
    (1024 : Int) ≠ 2048 := by
  refine ⟨rfl, ?_, midpoint_window_stream3x_head, by norm_num⟩
  rw [post_intended_dec3x]
  exact unpack_ramp_1024_head

/-- C2: the claim says every Decoder/Extractor failure is caught and
converted into a typed error Result and a decode failure never yields a
successful-looking window. The handler contains no exception handling at
all: for every decoder behavior, every upload and every parameter value,
POST terminates in an uncaught Python exception (missing-file KeyError,
propagated decoder error, IndexError on an empty buffer list, or the
NameError of line 62) and never produces any response, typed or
otherwise. -/
theorem c2_every_request_ends_in_unhandled_exception
    (decode : List Nat → DecodeOutcome) (fileBytes : Option (List Nat))
    (tmpName : String) (l sr : Int) :
    ∃ e : PyError, WaveformAPI.post decode fileBytes tmpName l sr = Except.error e := by
  cases fileBytes with
  | none => exact ⟨PyError.keyError "file", rfl⟩
  | some bytes =>
    cases h : decode bytes with
    | fail msg =>
      exact ⟨PyError.decodeError msg, by simp [WaveformAPI.post, h]⟩
    | ok audio =>
      cases h2 : audio.buffers[audio.buffers.length / 2]? with
      | none => exact ⟨PyError.indexError, by simp [WaveformAPI.post, h, h2]⟩
      | some b =>
        exact ⟨PyError.nameError "middle_sample", by simp [WaveformAPI.post, h, h2]⟩

/-- C3: the claim says a zero, negative or over-ceiling length parameter
yields the InvalidParameter typed error before any decode is attempted.
The handler never inspects the length parameter: for every integer value,
zero and negatives included, it proceeds through the decode of the upload
and dies on the NameError of line 62; no InvalidParameter value exists
anywhere in the code. -/
theorem c3_length_parameter_never_validated (l sr : Int) :
    WaveformAPI.post dec2048 (some uploadBytes) "t3" l sr
      = Except.error (PyError.nameError "middle_sample") := rfl

/-- C4: the claim says every successful Result has size at most length,
with equality unless truncated is set. As written the handler crashes on
every request; with the variable slip repaired, a request with length 100
against a valid 2048-sample stream yields a response of size 2048,
exceeding the requested length, and the response schema carries no
truncated field at all. -/
theorem c4_size_not_bounded_by_length :
    WaveformAPI.post dec2048 (some uploadBytes) "t4" 100 44100
      = Except.error (PyError.nameError "middle_sample") ∧
    respSize (WaveformAPI.post_intended dec2048 (some uploadBytes) "t4" 100 44100)
      = some 2048 ∧
    ¬ ((2048 : Nat) ≤ 100) := by
  refine ⟨rfl, ?_, by norm_num⟩
  rw [post_intended_dec2048]
  rfl

/-- C5: the claim says a stream shorter than the requested length returns
the full available sequence with truncated true and size below length. The
shipped handler raises NameError instead; with the slip repaired, the
50-sample stream makes struct.unpack fail on the 100-byte buffer, raising
struct.error: an unhandled exception, not a truncated Result. -/
theorem c5_short_stream_raises_instead_of_truncated :
    WaveformAPI.post decShort (some uploadBytes) "t5" 2048 44100
      = Except.error (PyError.nameError "middle_sample") ∧
    WaveformAPI.post_intended decShort (some uploadBytes) "t5" 2048 44100
      = Except.error PyError.structError := by
  exact ⟨rfl, rfl⟩

/-- C6: the claim says a zero-byte source yields the EmptySource typed
error and never a Result. No EmptySource value exists in the code: on an
empty upload the decoder exception propagates uncaught, and a decoder
yielding zero buffers makes the middle-index lookup raise IndexError --
both unhandled faults, neither a typed error. -/
theorem c6_zero_byte_input_has_no_typed_error :
    WaveformAPI.post decEmptyFails (some []) "t6" 2048 44100
      = Except.error (PyError.decodeError "NoBackendError") ∧
    WaveformAPI.post (fun _ => DecodeOutcome.ok streamNoBuffers) (some []) "t6b" 2048 44100
      = Except.error PyError.indexError := by
  exact ⟨rfl, rfl⟩

/-- C7: the pipeline is deterministic. The only nondeterministic input of
the handler is the random uuid4 temp-file name, which names the scratch
location of the upload and never enters the data path: for a fixed decoder
behavior, fixed upload bytes and fixed parameters, two runs with different
temp names produce identical outcomes, both for the handler as written and
for its slip-repaired variant. -/
theorem c7_pipeline_deterministic (decode : List Nat → DecodeOutcome)
    (fileBytes : Option (List Nat)) (name1 name2 : String) (l sr : Int) :
    WaveformAPI.post decode fileBytes name1 l sr
      = WaveformAPI.post decode fileBytes name2 l sr ∧
    WaveformAPI.post_intended decode fileBytes name1 l sr
      = WaveformAPI.post_intended decode fileBytes name2 l sr := by
  exact ⟨rfl, rfl⟩

/-- C8: the claim says every non-error Result carries channels at least 1
and samplerate above 0. The handler never returns a non-error Result at
all (every request dies on the NameError), so no Result exists to satisfy
the invariant; moreover nothing in the code checks the metadata: the
slip-repaired handler copies channels and samplerate verbatim from the
decoder, returning 0 for both when the decoder reports 0. -/
theorem c8_metadata_invariant_never_established :
    WaveformAPI.post dec2048 (some uploadBytes) "t8" 2048 48000
      = Except.error (PyError.nameError "middle_sample") ∧
    respChannels (WaveformAPI.post_intended (fun _ => DecodeOutcome.ok streamZeroMeta)
      (some uploadBytes) "t8" 2048 48000) = some 0 ∧
    respSamplerate (WaveformAPI.post_intended (fun _ => DecodeOutcome.ok streamZeroMeta)
      (some uploadBytes) "t8" 2048 48000) = some 0 := by
  have h := post_intended_ok (fun _ => DecodeOutcome.ok streamZeroMeta) uploadBytes
    "t8" 2048 48000 streamZeroMeta (rampBlock 0 2048) rfl rfl (by rw [rampBlock_length])
  refine ⟨rfl, ?_, ?_⟩ <;> rw [h] <;> rfl

/-- C9: in every successful response the size field equals the element
count of the samples array and that count is the constant 2048 whatever
the length parameter says. The handler as written never assembles any
successful response (NameError first); the response-assembly code it
conceals, reached through the slip-repaired variant, does satisfy the
claim: for length parameters as different as 7 and 999999 the size field
and the element count are both 2048. -/
theorem c9_size_is_constant_2048 :
    WaveformAPI.post dec2048 (some uploadBytes) "t9" 7 44100
      = Except.error (PyError.nameError "middle_sample") ∧
    respSize (WaveformAPI.post_intended dec2048 (some uploadBytes) "t9" 7 44100)
      = some 2048 ∧
    respSamplesLength (WaveformAPI.post_intended dec2048 (some uploadBytes) "t9" 7 44100)
      = some 2048 ∧
    respSize (WaveformAPI.post_intended dec2048 (some uploadBytes) "t9" 999999 44100)
      = some 2048 := by
  refine ⟨rfl, ?_, ?_, ?_⟩
  · rw [post_intended_dec2048]
    rfl
  · rw [post_intended_dec2048]
    show some ((unpackInt16s (rampBlock 0 2048)).length) = some 2048
    rw [unpackInt16s_length, rampBlock_length]
  · rw [post_intended_dec2048]
    rfl

/-- C10: every GET request to the sampling endpoint returns the wrapped
empty object, a data key holding an empty dict, with mimetype
application/json, and the url, sample_rate and length parameters have no
effect on the response. -/
theorem c10_get_returns_wrapped_empty_object (u : Option String) (s l : Option Int)
    (u2 : Option String) (s2 l2 : Option Int) :
    WaveformAPI.get u s l
      = { body := PyJson.obj [("data", PyJson.obj [])], mimetype := "application/json" } ∧
    WaveformAPI.get u s l = WaveformAPI.get u2 s2 l2 := by
  exact ⟨rfl, rfl⟩
